import Mathlib

/-!
Verification of the rotating-cube WebGL demo (`src/webgl-demo.js`).

The script keeps top-level mutable variables
`dragging, lastMouseX, lastMouseY, rotationX, rotationY, velocityX, velocityY`
(line 4) plus the render loop's `then` timestamp (line 91).  We embed them as
a record over `ℚ`: the script computes with JS numbers, and every
claim-relevant computation here is a short sequence of additions and
multiplications that we analyse exactly.

The event handlers (`mousedown`, `mouseup`, `mousemove`, lines 75-83) and the
per-frame state update of `render` (lines 92-105) become pure state
transformers.  The GL-facing startup path (`initShaderProgram`, `loadShader`,
lines 110-135) is embedded as a trace-producing function over an abstract GL
behaviour that records which GL calls the script performs, and the texture
path (`loadTexture`, `isPowerOf2`, lines 138-161) as a texture-state
transformer with the synchronous placeholder upload and the asynchronous
`image.onload` callback modelled separately.
-/

namespace WebglDemo

open Filter Topology

/-- Top-level mutable state of `webgl-demo.js`: the seven variables of line 4
together with the render loop's `then` timestamp (line 91).  `rotationX` is
the pitch angle (driven by vertical pointer motion) and `rotationY` the yaw
angle (driven by horizontal pointer motion). -/
structure DemoState where
  dragging : Bool
  lastMouseX : ℚ
  lastMouseY : ℚ
  rotationX : ℚ
  rotationY : ℚ
  velocityX : ℚ
  velocityY : ℚ
  thenTime : ℚ
deriving DecidableEq

/-- `const friction = 0.95;` (line 5). -/
def friction : ℚ := 0.95

/-- The `mousedown` handler (line 75): start dragging and record the anchor
coordinates. -/
def mousedown (s : DemoState) (x y : ℚ) : DemoState :=
  { s with dragging := true, lastMouseX := x, lastMouseY := y }

/-- The `mouseup` handler (line 76): stop dragging; nothing else changes. -/
def mouseup (s : DemoState) : DemoState :=
  { s with dragging := false }

/-- The `mousemove` handler (lines 77-83).  When not dragging it returns
early.  Otherwise `dx = clientX - lastMouseX`, `dy = clientY - lastMouseY`,
the velocities are overwritten with `dx * 0.01` (yaw) and `dy * 0.01`
(pitch), the velocities are added to the angles, and the last coordinates are
updated. -/
def mousemove (s : DemoState) (x y : ℚ) : DemoState :=
  if s.dragging then
    { s with
      velocityY := (x - s.lastMouseX) * 0.01,
      velocityX := (y - s.lastMouseY) * 0.01,
      rotationY := s.rotationY + (x - s.lastMouseX) * 0.01,
      rotationX := s.rotationX + (y - s.lastMouseY) * 0.01,
      lastMouseX := x,
      lastMouseY := y }
  else s

/-- A finite sequence of `mousemove` events, processed in order. -/
def mousemoves (s : DemoState) (ms : List (ℚ × ℚ)) : DemoState :=
  ms.foldl (fun s p => mousemove s p.1 p.2) s

/-- One invocation of `render(now)` (lines 92-105), restricted to its state
effect: `now *= 0.001` is stored into `then` (the computed `deltaTime` is
never used), and when not dragging one decay step runs:
`rotationX += velocityX; rotationY += velocityY;
velocityX *= friction; velocityY *= friction`.
The `gl.clear`, `drawScene` and `requestAnimationFrame` calls are I/O and do
not touch this state. -/
def renderTick (s : DemoState) (now : ℚ) : DemoState :=
  let s1 : DemoState := { s with thenTime := now * 0.001 }
  if s1.dragging then s1
  else
    { s1 with
      rotationX := s1.rotationX + s1.velocityX,
      rotationY := s1.rotationY + s1.velocityY,
      velocityX := s1.velocityX * friction,
      velocityY := s1.velocityY * friction }

/-- A sequence of frame ticks with the given `now` timestamps. -/
def renderTicks (s : DemoState) (ts : List ℚ) : DemoState :=
  ts.foldl renderTick s

/-- `N` consecutive frame ticks (the timestamps do not influence the rotation
state, so they are fixed to `0`). -/
def idleIter (n : Nat) (s : DemoState) : DemoState :=
  renderTicks s (List.replicate n 0)

/-- Successive differences of a coordinate sequence against a starting
coordinate: the per-event deltas `dx_i` (resp. `dy_i`) that the `mousemove`
handler computes, each relative to the previously recorded position. -/
def deltas (prev : ℚ) : List ℚ → List ℚ
  | [] => []
  | x :: xs => (x - prev) :: deltas x xs

/-! ## GL startup trace model (`initShaderProgram` / `loadShader`) -/

/-- The two shader stages. -/
inductive ShaderKind where
  | vertex
  | fragment
deriving DecidableEq

/-- Abstract behaviour of the GL driver for this startup: whether each stage
would compile and whether a program with both valid stages attached would
link. -/
structure GLBehavior where
  vertexCompiles : Bool
  fragmentCompiles : Bool
  linkWouldSucceed : Bool
deriving DecidableEq

/-- GL calls (and `alert` reports) that the startup path of the script can
perform.  `deleteProgram` is in the alphabet because the claims ask about it:
the script never calls `gl.deleteProgram`, so no trace below ever contains
it.  `deleteShader` is emitted by `loadShader` on a failed compile
(line 131). -/
inductive GLEvent where
  | createShader (k : ShaderKind)
  | compileShader (k : ShaderKind)
  | alertCompileError (k : ShaderKind)
  | deleteShader (k : ShaderKind)
  | createProgram
  | attachShader (stage : Option ShaderKind)
  | linkProgram
  | alertLinkError
  | deleteProgram
  | requestFrame
  | drawSceneCall
deriving DecidableEq

/-- Whether the given stage compiles under the given behaviour. -/
def compiles (b : GLBehavior) : ShaderKind → Bool
  | .vertex => b.vertexCompiles
  | .fragment => b.fragmentCompiles

/-- `loadShader` (lines 125-135): create the shader, compile it; on failure
alert with the info log, delete the shader and return `null` (`none`); on
success return the shader. -/
def loadShader (b : GLBehavior) (k : ShaderKind) : Option ShaderKind × List GLEvent :=
  if compiles b k then
    (some k, [.createShader k, .compileShader k])
  else
    (none, [.createShader k, .compileShader k, .alertCompileError k, .deleteShader k])

/-- LINK_STATUS reported by the GL, modelled from WebGL/GLES semantics: a
program links successfully only when a valid vertex stage and a valid
fragment stage are attached (attaching `null` leaves the stage missing) and
the driver reports link success. -/
def linkStatus (b : GLBehavior) (vs fs : Option ShaderKind) : Bool :=
  vs.isSome && fs.isSome && b.linkWouldSucceed

/-- `initShaderProgram` (lines 110-122): load both shaders, create a program,
attach whatever `loadShader` returned (possibly `null` — there is no check),
call `linkProgram`, and test LINK_STATUS; on failure alert and return `null`.
No `deleteProgram` call exists in the script. -/
def initShaderProgram (b : GLBehavior) : Option Unit × List GLEvent :=
  let vres := loadShader b .vertex
  let fres := loadShader b .fragment
  let t := vres.2 ++ fres.2 ++
    [.createProgram, .attachShader vres.1, .attachShader fres.1, .linkProgram]
  if linkStatus b vres.1 fres.1 then (some (), t)
  else (none, t ++ [.alertLinkError])

/-- Startup trace of `main` through the first frame: `main` never inspects
the result of `initShaderProgram`; it unconditionally reaches
`requestAnimationFrame(render)` (line 106) and `render` unconditionally calls
`drawScene` (line 103). -/
def mainStartupTrace (b : GLBehavior) : List GLEvent :=
  (initShaderProgram b).2 ++ [.requestFrame, .drawSceneCall]

/-! ## Attribute/uniform location resolution (`programInfo`, lines 55-68) -/

/-- Attribute names the script looks up. -/
inductive AName where
  | aVertexPosition
  | aVertexNormal
  | aTextureCoord
deriving DecidableEq

/-- Uniform names the script looks up. -/
inductive UName where
  | uProjectionMatrix
  | uModelViewMatrix
  | uNormalMatrix
  | uSampler
deriving DecidableEq

/-- A linked program's active attribute and uniform names, in location
order. -/
structure LinkedProgram where
  attribs : List AName
  uniforms : List UName
deriving DecidableEq

/-- Index of the first occurrence of `a`, if present. -/
def lookupIdx {α : Type} [DecidableEq α] (a : α) : List α → Option Nat
  | [] => none
  | x :: xs => if x = a then some 0 else (lookupIdx a xs).map (· + 1)

/-- `gl.getAttribLocation`: the attribute's location, or `-1` when the name
is not active in the program. -/
def getAttribLocation (p : LinkedProgram) (n : AName) : Int :=
  match lookupIdx n p.attribs with
  | some i => (i : Int)
  | none => -1

/-- `gl.getUniformLocation`: the uniform's location, or `null` (`none`) when
the name is not active in the program. -/
def getUniformLocation (p : LinkedProgram) (n : UName) : Option Nat :=
  lookupIdx n p.uniforms

/-- The `programInfo` record built at lines 55-68. -/
structure ProgramInfo where
  vertexPosition : Int
  vertexNormal : Int
  textureCoord : Int
  projectionMatrix : Option Nat
  modelViewMatrix : Option Nat
  normalMatrix : Option Nat
  uSampler : Option Nat
deriving DecidableEq

/-- Construction of `programInfo` (lines 55-68): seven plain lookups stored
into a record.  The script performs no check on any of them. -/
def buildProgramInfo (p : LinkedProgram) : ProgramInfo :=
  { vertexPosition := getAttribLocation p .aVertexPosition,
    vertexNormal := getAttribLocation p .aVertexNormal,
    textureCoord := getAttribLocation p .aTextureCoord,
    projectionMatrix := getUniformLocation p .uProjectionMatrix,
    modelViewMatrix := getUniformLocation p .uModelViewMatrix,
    normalMatrix := getUniformLocation p .uNormalMatrix,
    uSampler := getUniformLocation p .uSampler }

/-! ## Texture model (`loadTexture` / `isPowerOf2`, lines 138-161) -/

/-- WebGL texture wrap modes relevant here. -/
inductive WrapMode where
  | repeatWrap
  | clampToEdge
deriving DecidableEq

/-- WebGL minification filters relevant here. -/
inductive MinFilter where
  | nearestMipmapLinear
  | linear
deriving DecidableEq

/-- State of the demo's one texture object: the uploaded pixel store
(width, height, RGBA bytes), its sampling parameters and whether mipmaps have
been generated. -/
structure Texture where
  data : Option (Nat × Nat × List Nat)
  wrapS : WrapMode
  wrapT : WrapMode
  minFilter : MinFilter
  mipmapsGenerated : Bool
deriving DecidableEq

/-- `gl.createTexture()`: a fresh texture with no pixel store and the WebGL
default parameters (wrap REPEAT on both axes, min filter
NEAREST_MIPMAP_LINEAR, no mipmaps). -/
def createTexture : Texture :=
  { data := none, wrapS := .repeatWrap, wrapT := .repeatWrap,
    minFilter := .nearestMipmapLinear, mipmapsGenerated := false }

/-- `gl.texImage2D` on the bound texture: replace the pixel store. -/
def texImage2D (t : Texture) (w h : Nat) (px : List Nat) : Texture :=
  { t with data := some (w, h, px) }

/-- The placeholder pixel `new Uint8Array([0, 0, 255, 255])` (line 142):
one RGBA pixel, opaque blue. -/
def placeholderPixel : List Nat := [0, 0, 255, 255]

/-- The synchronous part of `loadTexture` (lines 138-143): create the
texture, bind it and upload the single 1×1 placeholder pixel.  The `Image`
construction and `onload` registration that follow do not change the texture
before the callback fires; the texture is returned in this state. -/
def loadTexture : Texture :=
  texImage2D createTexture 1 1 placeholderPixel

/-- A decoded image delivered to `image.onload`. -/
structure Image where
  width : Nat
  height : Nat
  pixels : List Nat

/-- `isPowerOf2` (line 161): `(value & (value - 1)) === 0`.  For the
dimension range of real images (`0 ≤ value < 2^31`) JS int32 bitwise
arithmetic agrees with `Nat` bitwise arithmetic, with JS `0 - 1 = -1`
matching `Nat` truncated subtraction because `0 &&& x = 0` either way. -/
def isPowerOf2 (value : Nat) : Bool :=
  value &&& (value - 1) == 0

/-- The `image.onload` callback (lines 146-155): re-bind the texture, upload
the decoded image, then either generate mipmaps (both dimensions powers of
two) or set clamp-to-edge wrapping on both axes and a linear min filter. -/
def imageOnload (t : Texture) (img : Image) : Texture :=
  let t1 := texImage2D t img.width img.height img.pixels
  if isPowerOf2 img.width && isPowerOf2 img.height then
    { t1 with mipmapsGenerated := true }
  else
    { t1 with wrapS := .clampToEdge, wrapT := .clampToEdge, minFilter := .linear }

/-! ## Concrete states used by scenario theorems and witnesses -/

/-- State at pointer-up with pitch velocity `0.1` and yaw velocity `0`
(the scenario of the spec's §8). -/
def c7Start : DemoState :=
  { dragging := false, lastMouseX := 0, lastMouseY := 0, rotationX := 0, rotationY := 0,
    velocityX := 0.1, velocityY := 0, thenTime := 0 }

/-- The state after ten idle frame ticks from `c7Start`. -/
def c7End : DemoState := renderTicks c7Start (List.replicate 10 0)

/-- An idle state with nonzero velocities, used as a witness input. -/
def w1State : DemoState :=
  { dragging := false, lastMouseX := 0, lastMouseY := 0, rotationX := 2, rotationY := 3,
    velocityX := 1, velocityY := 4, thenTime := 0 }

/-- A dragging state anchored at `(100, 100)`, used as a witness input. -/
def w2State : DemoState :=
  { dragging := true, lastMouseX := 100, lastMouseY := 100, rotationX := 0, rotationY := 0,
    velocityX := 0, velocityY := 0, thenTime := 0 }

/-- A dragging state with arbitrary nonzero fields, used as a witness input. -/
def w8State : DemoState :=
  { dragging := true, lastMouseX := 5, lastMouseY := 6, rotationX := 1, rotationY := 2,
    velocityX := 3, velocityY := 4, thenTime := 7 }

/-- A 256×256 image (both dimensions powers of two), used as a witness
input. -/
def wImage : Image := { width := 256, height := 256, pixels := [] }

/-! ## Helper lemmas -/

lemma land_self (n : Nat) : n &&& n = n := by
  apply Nat.eq_of_testBit_eq
  intro i
  rw [Nat.testBit_land]
  exact Bool.and_self _

/-- `n & (n - 1) = 0` characterises powers of two among the positive
naturals: the trick the script's `isPowerOf2` relies on. -/
lemma land_pred_eq_zero_iff : ∀ n : Nat, 0 < n → ((n &&& (n - 1)) = 0 ↔ ∃ k, n = 2 ^ k) := by
  intro n
  induction n using Nat.strong_induction_on with
  | _ n ih =>
    intro hpos
    rcases Nat.even_or_odd n with he | ho
    · obtain ⟨m, hm⟩ := he
      have hmpos : 0 < m := by omega
      have hbit : n = Nat.bit false m := by
        simp only [Nat.bit_val, Bool.toNat_false]; omega
      have hpred : n - 1 = Nat.bit true (m - 1) := by
        simp only [Nat.bit_val, Bool.toNat_true]; omega
      have key : n &&& (n - 1) = 2 * (m &&& (m - 1)) := by
        rw [hpred]
        rw [hbit]
        rw [Nat.land_bit]
        simp only [Bool.false_and, Nat.bit_val, Bool.toNat_false]
        omega
      rw [key]
      constructor
      · intro h0
        have h00 : m &&& (m - 1) = 0 := by omega
        obtain ⟨k, hk⟩ := (ih m (by omega) hmpos).1 h00
        refine ⟨k + 1, ?_⟩
        rw [pow_succ]
        omega
      · rintro ⟨k, hk⟩
        cases k with
        | zero => simp at hk; omega
        | succ j =>
          rw [pow_succ] at hk
          have hmk : m = 2 ^ j := by omega
          have h00 : m &&& (m - 1) = 0 := (ih m (by omega) hmpos).2 ⟨j, hmk⟩
          omega
    · obtain ⟨m, hm⟩ := ho
      rcases Nat.eq_zero_or_pos m with hm0 | hmpos
      · subst hm0
        constructor
        · intro _
          exact ⟨0, by omega⟩
        · intro _
          have h1 : n = 1 := by omega
          subst h1
          decide
      · have hbit : n = Nat.bit true m := by
          simp only [Nat.bit_val, Bool.toNat_true]; omega
        have hpred : n - 1 = Nat.bit false m := by
          simp only [Nat.bit_val, Bool.toNat_false]; omega
        have key : n &&& (n - 1) = 2 * m := by
          rw [hpred]
          rw [hbit]
          rw [Nat.land_bit]
          simp only [Bool.true_and, land_self, Nat.bit_val, Bool.toNat_false]
          omega
        rw [key]
        constructor
        · intro h0
          exact absurd h0 (by omega)
        · rintro ⟨k, hk⟩
          cases k with
          | zero => simp at hk; omega
          | succ j =>
            rw [pow_succ] at hk
            omega

/-- The script's `isPowerOf2` agrees with the mathematical notion on
positive inputs (a loaded image always has positive dimensions). -/
lemma isPowerOf2_iff (n : Nat) (h : 0 < n) :
    isPowerOf2 n = true ↔ ∃ k, n = 2 ^ k := by
  unfold isPowerOf2
  rw [beq_iff_eq]
  exact land_pred_eq_zero_iff n h

lemma lookupIdx_eq_none {α : Type} [DecidableEq α] (a : α) (l : List α) (h : a ∉ l) :
    lookupIdx a l = none := by
  induction l with
  | nil => rfl
  | cons x xs ih =>
    simp only [List.mem_cons, not_or] at h
    simp [lookupIdx, Ne.symm h.1, ih h.2]

/-- Effect of one frame tick while not dragging. -/
lemma renderTick_idle (s : DemoState) (t : ℚ) (h : s.dragging = false) :
    (renderTick s t).rotationX = s.rotationX + s.velocityX ∧
    (renderTick s t).rotationY = s.rotationY + s.velocityY ∧
    (renderTick s t).velocityX = s.velocityX * friction ∧
    (renderTick s t).velocityY = s.velocityY * friction ∧
    (renderTick s t).lastMouseX = s.lastMouseX ∧
    (renderTick s t).lastMouseY = s.lastMouseY ∧
    (renderTick s t).dragging = false := by
  simp [renderTick, h]

/-- Closed form for a run of idle frame ticks: the velocities decay
geometrically and the angles accumulate the geometric partial sum. -/
lemma renderTicks_idle (ts : List ℚ) :
    ∀ s : DemoState, s.dragging = false →
      (renderTicks s ts).dragging = false ∧
      (renderTicks s ts).velocityX = s.velocityX * friction ^ ts.length ∧
      (renderTicks s ts).velocityY = s.velocityY * friction ^ ts.length ∧
      (renderTicks s ts).rotationX
        = s.rotationX + s.velocityX * (1 - friction ^ ts.length) / (1 - friction) ∧
      (renderTicks s ts).rotationY
        = s.rotationY + s.velocityY * (1 - friction ^ ts.length) / (1 - friction) := by
  induction ts with
  | nil =>
    intro s h
    refine ⟨h, ?_, ?_, ?_, ?_⟩ <;> simp [renderTicks]
  | cons t ts ih =>
    intro s h
    have hstep := renderTick_idle s t h
    have hrec := ih (renderTick s t) hstep.2.2.2.2.2.2
    have hfold : renderTicks s (t :: ts) = renderTicks (renderTick s t) ts := rfl
    have hfr : (1 : ℚ) - friction ≠ 0 := by norm_num [friction]
    refine ⟨by rw [hfold]; exact hrec.1, ?_, ?_, ?_, ?_⟩
    · rw [hfold, hrec.2.1, hstep.2.2.1, List.length_cons]
      ring
    · rw [hfold, hrec.2.2.1, hstep.2.2.2.1, List.length_cons]
      ring
    · rw [hfold, hrec.2.2.2.1, hstep.1, hstep.2.2.1, List.length_cons]
      field_simp
      ring
    · rw [hfold, hrec.2.2.2.2, hstep.2.1, hstep.2.2.2.1, List.length_cons]
      field_simp
      ring

lemma idleIter_rotationX (s : DemoState) (h : s.dragging = false) (n : Nat) :
    ((idleIter n s).rotationX : ℝ)
      = (s.rotationX : ℝ) + (s.velocityX : ℝ) * (1 - (0.95 : ℝ) ^ n) / (1 - 0.95) := by
  have hf := (renderTicks_idle (List.replicate n 0) s h).2.2.2.1
  rw [List.length_replicate] at hf
  rw [idleIter, hf]
  push_cast [friction]
  norm_num

lemma idleIter_rotationY (s : DemoState) (h : s.dragging = false) (n : Nat) :
    ((idleIter n s).rotationY : ℝ)
      = (s.rotationY : ℝ) + (s.velocityY : ℝ) * (1 - (0.95 : ℝ) ^ n) / (1 - 0.95) := by
  have hf := (renderTicks_idle (List.replicate n 0) s h).2.2.2.2
  rw [List.length_replicate] at hf
  rw [idleIter, hf]
  push_cast [friction]
  norm_num

lemma tendsto_idle_rotationX (s : DemoState) (h : s.dragging = false) :
    Tendsto (fun n : ℕ => ((idleIter n s).rotationX : ℝ)) atTop
      (nhds ((s.rotationX : ℝ) + (s.velocityX : ℝ) / (1 - 0.95))) := by
  have hpow : Tendsto (fun n : ℕ => (0.95 : ℝ) ^ n) atTop (nhds 0) :=
    tendsto_pow_atTop_nhds_zero_of_lt_one (by norm_num) (by norm_num)
  have h1 : Tendsto
      (fun n : ℕ => (s.rotationX : ℝ) + (s.velocityX : ℝ) * (1 - (0.95 : ℝ) ^ n) / (1 - 0.95))
      atTop (nhds ((s.rotationX : ℝ) + (s.velocityX : ℝ) * (1 - 0) / (1 - 0.95))) :=
    Tendsto.const_add _
      (Tendsto.div_const (Tendsto.const_mul _ (tendsto_const_nhds.sub hpow)) _)
  have h2 : (s.velocityX : ℝ) * (1 - 0) / (1 - 0.95) = (s.velocityX : ℝ) / (1 - 0.95) := by
    norm_num
  rw [h2] at h1
  exact Tendsto.congr (fun n => (idleIter_rotationX s h n).symm) h1

lemma tendsto_idle_rotationY (s : DemoState) (h : s.dragging = false) :
    Tendsto (fun n : ℕ => ((idleIter n s).rotationY : ℝ)) atTop
      (nhds ((s.rotationY : ℝ) + (s.velocityY : ℝ) / (1 - 0.95))) := by
  have hpow : Tendsto (fun n : ℕ => (0.95 : ℝ) ^ n) atTop (nhds 0) :=
    tendsto_pow_atTop_nhds_zero_of_lt_one (by norm_num) (by norm_num)
  have h1 : Tendsto
      (fun n : ℕ => (s.rotationY : ℝ) + (s.velocityY : ℝ) * (1 - (0.95 : ℝ) ^ n) / (1 - 0.95))
      atTop (nhds ((s.rotationY : ℝ) + (s.velocityY : ℝ) * (1 - 0) / (1 - 0.95))) :=
    Tendsto.const_add _
      (Tendsto.div_const (Tendsto.const_mul _ (tendsto_const_nhds.sub hpow)) _)
  have h2 : (s.velocityY : ℝ) * (1 - 0) / (1 - 0.95) = (s.velocityY : ℝ) / (1 - 0.95) := by
    norm_num
  rw [h2] at h1
  exact Tendsto.congr (fun n => (idleIter_rotationY s h n).symm) h1

/-- Effect of one `mousemove` while dragging. -/
lemma mousemove_drag (s : DemoState) (x y : ℚ) (h : s.dragging = true) :
    (mousemove s x y).rotationY = s.rotationY + (x - s.lastMouseX) * 0.01 ∧
    (mousemove s x y).rotationX = s.rotationX + (y - s.lastMouseY) * 0.01 ∧
    (mousemove s x y).velocityY = (x - s.lastMouseX) * 0.01 ∧
    (mousemove s x y).velocityX = (y - s.lastMouseY) * 0.01 ∧
    (mousemove s x y).lastMouseX = x ∧
    (mousemove s x y).lastMouseY = y ∧
    (mousemove s x y).dragging = true := by
  simp [mousemove, h]

lemma mousemoves_cons (s : DemoState) (q : ℚ × ℚ) (ms : List (ℚ × ℚ)) :
    mousemoves s (q :: ms) = mousemoves (mousemove s q.1 q.2) ms := rfl

/-- Over any move sequence delivered while dragging, each angle accumulates
the per-event deltas times `0.01`. -/
lemma mousemoves_drag_accum (ms : List (ℚ × ℚ)) :
    ∀ s : DemoState, s.dragging = true →
      (mousemoves s ms).dragging = true ∧
      (mousemoves s ms).rotationY
        = s.rotationY + ((deltas s.lastMouseX (ms.map Prod.fst)).map (fun d => d * 0.01)).sum ∧
      (mousemoves s ms).rotationX
        = s.rotationX + ((deltas s.lastMouseY (ms.map Prod.snd)).map (fun d => d * 0.01)).sum := by
  induction ms with
  | nil =>
    intro s h
    refine ⟨h, ?_, ?_⟩ <;> simp [mousemoves, deltas]
  | cons q ms ih =>
    intro s h
    have hm := mousemove_drag s q.1 q.2 h
    have hrec := ih (mousemove s q.1 q.2) hm.2.2.2.2.2.2
    refine ⟨by rw [mousemoves_cons]; exact hrec.1, ?_, ?_⟩
    · rw [mousemoves_cons, hrec.2.1, hm.1, hm.2.2.2.2.1]
      simp only [List.map_cons, deltas, List.sum_cons]
      ring
    · rw [mousemoves_cons, hrec.2.2, hm.2.1, hm.2.2.2.2.2.1]
      simp only [List.map_cons, deltas, List.sum_cons]
      ring

/-! ## Claims -/

/-- Claim C1: starting from any state at pointer-up, after `N` consecutive
frame ticks in the Idle (not dragging) state each angular velocity equals
`velocity_0 * 0.95 ^ N`, each angle equals
`angle_0 + velocity_0 * (1 - 0.95 ^ N) / (1 - 0.95)`, the angle sequence
converges to `angle_0 + velocity_0 / (1 - 0.95)` as `N → ∞`, and each idle
tick performs `angle += velocity` first (the pre-decay velocity is added)
and then `velocity *= 0.95`. -/
theorem claim1_idle_flick_decay (s : DemoState) (ts : List ℚ) (h : s.dragging = false) :
    (renderTicks s ts).velocityX = s.velocityX * friction ^ ts.length ∧
    (renderTicks s ts).velocityY = s.velocityY * friction ^ ts.length ∧
    (renderTicks s ts).rotationX
      = s.rotationX + s.velocityX * (1 - friction ^ ts.length) / (1 - friction) ∧
    (renderTicks s ts).rotationY
      = s.rotationY + s.velocityY * (1 - friction ^ ts.length) / (1 - friction) ∧
    (∀ t, (renderTick s t).rotationX = s.rotationX + s.velocityX ∧
      (renderTick s t).rotationY = s.rotationY + s.velocityY ∧
      (renderTick s t).velocityX = s.velocityX * friction ∧
      (renderTick s t).velocityY = s.velocityY * friction) ∧
    Tendsto (fun n : ℕ => ((idleIter n s).rotationX : ℝ)) atTop
      (nhds ((s.rotationX : ℝ) + (s.velocityX : ℝ) / (1 - 0.95))) ∧
    Tendsto (fun n : ℕ => ((idleIter n s).rotationY : ℝ)) atTop
      (nhds ((s.rotationY : ℝ) + (s.velocityY : ℝ) / (1 - 0.95))) := by
  have hr := renderTicks_idle ts s h
  refine ⟨hr.2.1, hr.2.2.1, hr.2.2.2.1, hr.2.2.2.2, fun t => ?_,
    tendsto_idle_rotationX s h, tendsto_idle_rotationY s h⟩
  have h1 := renderTick_idle s t h
  exact ⟨h1.1, h1.2.1, h1.2.2.1, h1.2.2.2.1⟩

/-- Witness for C1 at the concrete idle state `w1State` and two ticks. -/
theorem claim1_witness :
    w1State.dragging = false ∧
    ((renderTicks w1State [0, 1]).velocityX
        = w1State.velocityX * friction ^ ([0, 1] : List ℚ).length ∧
      (renderTicks w1State [0, 1]).velocityY
        = w1State.velocityY * friction ^ ([0, 1] : List ℚ).length ∧
      (renderTicks w1State [0, 1]).rotationX
        = w1State.rotationX
          + w1State.velocityX * (1 - friction ^ ([0, 1] : List ℚ).length) / (1 - friction) ∧
      (renderTicks w1State [0, 1]).rotationY
        = w1State.rotationY
          + w1State.velocityY * (1 - friction ^ ([0, 1] : List ℚ).length) / (1 - friction) ∧
      (∀ t, (renderTick w1State t).rotationX = w1State.rotationX + w1State.velocityX ∧
        (renderTick w1State t).rotationY = w1State.rotationY + w1State.velocityY ∧
        (renderTick w1State t).velocityX = w1State.velocityX * friction ∧
        (renderTick w1State t).velocityY = w1State.velocityY * friction) ∧
      Tendsto (fun n : ℕ => ((idleIter n w1State).rotationX : ℝ)) atTop
        (nhds ((w1State.rotationX : ℝ) + (w1State.velocityX : ℝ) / (1 - 0.95))) ∧
      Tendsto (fun n : ℕ => ((idleIter n w1State).rotationY : ℝ)) atTop
        (nhds ((w1State.rotationY : ℝ) + (w1State.velocityY : ℝ) / (1 - 0.95)))) :=
  ⟨rfl, claim1_idle_flick_decay w1State [0, 1] rfl⟩

/-- Claim C2: over any finite sequence of pointer moves delivered while
dragging, yaw (`rotationY`) increases by exactly the sum of the horizontal
per-event deltas times `0.01` and pitch (`rotationX`) by the sum of the
vertical per-event deltas times `0.01`, each delta taken against the
previously recorded pointer position; moreover a single move immediately
adds its contribution to each angle. -/
theorem claim2_drag_accumulation (s : DemoState) (ms : List (ℚ × ℚ)) (h : s.dragging = true) :
    (mousemoves s ms).rotationY
      = s.rotationY + ((deltas s.lastMouseX (ms.map Prod.fst)).map (fun d => d * 0.01)).sum ∧
    (mousemoves s ms).rotationX
      = s.rotationX + ((deltas s.lastMouseY (ms.map Prod.snd)).map (fun d => d * 0.01)).sum ∧
    ∀ x y, (mousemove s x y).rotationY = s.rotationY + (x - s.lastMouseX) * 0.01 ∧
      (mousemove s x y).rotationX = s.rotationX + (y - s.lastMouseY) * 0.01 :=
  ⟨(mousemoves_drag_accum ms s h).2.1, (mousemoves_drag_accum ms s h).2.2,
    fun x y => ⟨(mousemove_drag s x y h).1, (mousemove_drag s x y h).2.1⟩⟩

/-- Witness for C2: a drag anchored at `(100, 100)` receiving the single
move `(150, 120)` (the spec's §8 scenario). -/
theorem claim2_witness :
    w2State.dragging = true ∧
    ((mousemoves w2State [(150, 120)]).rotationY
        = w2State.rotationY
          + ((deltas w2State.lastMouseX (([(150, 120)] : List (ℚ × ℚ)).map Prod.fst)).map
              (fun d => d * 0.01)).sum ∧
      (mousemoves w2State [(150, 120)]).rotationX
        = w2State.rotationX
          + ((deltas w2State.lastMouseY (([(150, 120)] : List (ℚ × ℚ)).map Prod.snd)).map
              (fun d => d * 0.01)).sum ∧
      ∀ x y, (mousemove w2State x y).rotationY
          = w2State.rotationY + (x - w2State.lastMouseX) * 0.01 ∧
        (mousemove w2State x y).rotationX
          = w2State.rotationX + (y - w2State.lastMouseY) * 0.01) :=
  ⟨rfl, claim2_drag_accumulation w2State [(150, 120)] rfl⟩

/-- Counterexample to claim C3 as stated: with a failing fragment shader
compile (behaviour `⟨true, false, true⟩`), the startup trace still contains
the `linkProgram` call and still reaches `drawScene` — linking IS attempted
and a draw IS issued, because neither `initShaderProgram` nor `main`
inspects the `null` returned on failure. -/
theorem claim3_counterexample :
    compiles ⟨true, false, true⟩ ShaderKind.fragment = false ∧
    GLEvent.linkProgram ∈ (initShaderProgram ⟨true, false, true⟩).2 ∧
    GLEvent.drawSceneCall ∈ mainStartupTrace ⟨true, false, true⟩ := by
  decide

/-- Claim C3 (amended): if the fragment shader fails to compile, a
CompileError diagnostic is reported (alert) and the failed shader object is
deleted, but the `null` stage is still attached and linking is still
attempted; `initShaderProgram` returns `null` after the failed link, and the
render loop is still started unconditionally, so draw calls are issued. -/
theorem claim3_compile_failure_still_links (b : GLBehavior)
    (h : b.fragmentCompiles = false) :
    GLEvent.alertCompileError .fragment ∈ (initShaderProgram b).2 ∧
    GLEvent.deleteShader .fragment ∈ (initShaderProgram b).2 ∧
    GLEvent.attachShader none ∈ (initShaderProgram b).2 ∧
    GLEvent.linkProgram ∈ (initShaderProgram b).2 ∧
    (initShaderProgram b).1 = none ∧
    GLEvent.drawSceneCall ∈ mainStartupTrace b := by
  rcases b with ⟨v, f, l⟩
  subst h
  cases v <;> cases l <;> decide

/-- Witness for the amended C3 at the concrete behaviour
`⟨true, false, true⟩`. -/
theorem claim3_witness :
    (⟨true, false, true⟩ : GLBehavior).fragmentCompiles = false ∧
    (GLEvent.alertCompileError .fragment ∈ (initShaderProgram ⟨true, false, true⟩).2 ∧
      GLEvent.deleteShader .fragment ∈ (initShaderProgram ⟨true, false, true⟩).2 ∧
      GLEvent.attachShader none ∈ (initShaderProgram ⟨true, false, true⟩).2 ∧
      GLEvent.linkProgram ∈ (initShaderProgram ⟨true, false, true⟩).2 ∧
      (initShaderProgram ⟨true, false, true⟩).1 = none ∧
      GLEvent.drawSceneCall ∈ mainStartupTrace ⟨true, false, true⟩) :=
  ⟨rfl, claim3_compile_failure_still_links ⟨true, false, true⟩ rfl⟩

/-- Counterexample to claim C4 as stated: a linked program in which every
expected attribute and uniform name is missing.  The `programInfo`
construction completes normally, storing the sentinel `-1` for each
attribute and `null` for each uniform — no IntegrationError is raised (no
error path exists in lines 55-68 at all); the missing names are silently
ignored. -/
theorem claim4_counterexample :
    buildProgramInfo ⟨[], []⟩ = ⟨-1, -1, -1, none, none, none, none⟩ := by
  decide

/-- Claim C4 (amended): after a successful link, the attribute and uniform
locations are looked up by name and stored without any validation; a
missing attribute name yields the sentinel location `-1` and a missing
uniform name yields `null`, silently — no IntegrationError is raised. -/
theorem claim4_locations_unchecked (p : LinkedProgram) :
    (AName.aVertexPosition ∉ p.attribs → (buildProgramInfo p).vertexPosition = -1) ∧
    (AName.aVertexNormal ∉ p.attribs → (buildProgramInfo p).vertexNormal = -1) ∧
    (AName.aTextureCoord ∉ p.attribs → (buildProgramInfo p).textureCoord = -1) ∧
    (UName.uProjectionMatrix ∉ p.uniforms → (buildProgramInfo p).projectionMatrix = none) ∧
    (UName.uModelViewMatrix ∉ p.uniforms → (buildProgramInfo p).modelViewMatrix = none) ∧
    (UName.uNormalMatrix ∉ p.uniforms → (buildProgramInfo p).normalMatrix = none) ∧
    (UName.uSampler ∉ p.uniforms → (buildProgramInfo p).uSampler = none) := by
  refine ⟨fun h => ?_, fun h => ?_, fun h => ?_, fun h => ?_, fun h => ?_, fun h => ?_,
    fun h => ?_⟩ <;>
    simp [buildProgramInfo, getAttribLocation, getUniformLocation, lookupIdx_eq_none _ _ h]

/-- Witness for the amended C4 at the program with no active names. -/
theorem claim4_witness :
    (buildProgramInfo ⟨[], []⟩).vertexPosition = -1 ∧
    (buildProgramInfo ⟨[], []⟩).vertexNormal = -1 ∧
    (buildProgramInfo ⟨[], []⟩).textureCoord = -1 ∧
    (buildProgramInfo ⟨[], []⟩).projectionMatrix = none ∧
    (buildProgramInfo ⟨[], []⟩).modelViewMatrix = none ∧
    (buildProgramInfo ⟨[], []⟩).normalMatrix = none ∧
    (buildProgramInfo ⟨[], []⟩).uSampler = none :=
  ⟨(claim4_locations_unchecked ⟨[], []⟩).1 (by decide),
    (claim4_locations_unchecked ⟨[], []⟩).2.1 (by decide),
    (claim4_locations_unchecked ⟨[], []⟩).2.2.1 (by decide),
    (claim4_locations_unchecked ⟨[], []⟩).2.2.2.1 (by decide),
    (claim4_locations_unchecked ⟨[], []⟩).2.2.2.2.1 (by decide),
    (claim4_locations_unchecked ⟨[], []⟩).2.2.2.2.2.1 (by decide),
    (claim4_locations_unchecked ⟨[], []⟩).2.2.2.2.2.2 (by decide)⟩

/-- Counterexample to claim C5 as stated: when linking fails (behaviour
`⟨true, true, false⟩`), `initShaderProgram` does report the failure and
return `null`, but it never emits `deleteProgram` — the program resource is
NOT released (the script has no `gl.deleteProgram` call). -/
theorem claim5_counterexample :
    (initShaderProgram ⟨true, true, false⟩).1 = none ∧
    GLEvent.alertLinkError ∈ (initShaderProgram ⟨true, true, false⟩).2 ∧
    GLEvent.deleteProgram ∉ (initShaderProgram ⟨true, true, false⟩).2 := by
  decide

/-- Claim C5 (amended): when linking the two compiled stages fails,
`initShaderProgram` reports a link error (alert) and returns `null`, but
does not release the program resource (no `deleteProgram` call occurs). -/
theorem claim5_link_failure_no_release (b : GLBehavior)
    (hv : b.vertexCompiles = true) (hf : b.fragmentCompiles = true)
    (hl : b.linkWouldSucceed = false) :
    (initShaderProgram b).1 = none ∧
    GLEvent.alertLinkError ∈ (initShaderProgram b).2 ∧
    GLEvent.deleteProgram ∉ (initShaderProgram b).2 := by
  rcases b with ⟨v, f, l⟩
  subst hv
  subst hf
  subst hl
  decide

/-- Witness for the amended C5 at the concrete behaviour
`⟨true, true, false⟩`. -/
theorem claim5_witness :
    (⟨true, true, false⟩ : GLBehavior).vertexCompiles = true ∧
    (⟨true, true, false⟩ : GLBehavior).fragmentCompiles = true ∧
    (⟨true, true, false⟩ : GLBehavior).linkWouldSucceed = false ∧
    ((initShaderProgram ⟨true, true, false⟩).1 = none ∧
      GLEvent.alertLinkError ∈ (initShaderProgram ⟨true, true, false⟩).2 ∧
      GLEvent.deleteProgram ∉ (initShaderProgram ⟨true, true, false⟩).2) :=
  ⟨rfl, rfl, rfl, claim5_link_failure_no_release ⟨true, true, false⟩ rfl rfl rfl⟩

/-- Claim C6: when the loaded image's width and height are both powers of
two, mipmaps are generated and the wrap mode stays at its default (repeat
on both axes); when either dimension is not a power of two, both wrap axes
are set to clamp-to-edge, no mipmaps are generated, and the min filter is
set to linear. -/
theorem claim6_pot_policy (img : Image) (hw : 0 < img.width) (hh : 0 < img.height) :
    ((∃ j, img.width = 2 ^ j) ∧ (∃ k, img.height = 2 ^ k) →
      (imageOnload loadTexture img).mipmapsGenerated = true ∧
      (imageOnload loadTexture img).wrapS = WrapMode.repeatWrap ∧
      (imageOnload loadTexture img).wrapT = WrapMode.repeatWrap) ∧
    (¬((∃ j, img.width = 2 ^ j) ∧ (∃ k, img.height = 2 ^ k)) →
      (imageOnload loadTexture img).wrapS = WrapMode.clampToEdge ∧
      (imageOnload loadTexture img).wrapT = WrapMode.clampToEdge ∧
      (imageOnload loadTexture img).mipmapsGenerated = false ∧
      (imageOnload loadTexture img).minFilter = MinFilter.linear) := by
  constructor
  · intro hp
    have hw2 : isPowerOf2 img.width = true := (isPowerOf2_iff _ hw).2 hp.1
    have hh2 : isPowerOf2 img.height = true := (isPowerOf2_iff _ hh).2 hp.2
    simp [imageOnload, hw2, hh2, texImage2D, loadTexture, createTexture]
  · intro hp
    have hcond : (isPowerOf2 img.width && isPowerOf2 img.height) = false := by
      by_contra hc
      rw [Bool.not_eq_false, Bool.and_eq_true] at hc
      exact hp ⟨(isPowerOf2_iff _ hw).1 hc.1, (isPowerOf2_iff _ hh).1 hc.2⟩
    simp [imageOnload, hcond, texImage2D, loadTexture, createTexture]

/-- Witness for C6 at the 256×256 image `wImage`. -/
theorem claim6_witness :
    0 < wImage.width ∧ 0 < wImage.height ∧
    (((∃ j, wImage.width = 2 ^ j) ∧ (∃ k, wImage.height = 2 ^ k) →
        (imageOnload loadTexture wImage).mipmapsGenerated = true ∧
        (imageOnload loadTexture wImage).wrapS = WrapMode.repeatWrap ∧
        (imageOnload loadTexture wImage).wrapT = WrapMode.repeatWrap) ∧
      (¬((∃ j, wImage.width = 2 ^ j) ∧ (∃ k, wImage.height = 2 ^ k)) →
        (imageOnload loadTexture wImage).wrapS = WrapMode.clampToEdge ∧
        (imageOnload loadTexture wImage).wrapT = WrapMode.clampToEdge ∧
        (imageOnload loadTexture wImage).mipmapsGenerated = false ∧
        (imageOnload loadTexture wImage).minFilter = MinFilter.linear)) :=
  ⟨by decide, by decide, claim6_pot_policy wImage (by decide) (by decide)⟩

/-- Counterexample to claim C7 as stated: from pitch velocity `0.1` and yaw
velocity `0`, after ten idle ticks the pitch increase does equal the claim's
own formula `0.1 * (1 - 0.95 ^ 10) / (1 - 0.95)`, but that value exceeds
`0.3487 + 0.4` — it is approximately `0.8025`, not `≈ 0.3487` as the claim
asserts (`0.3487` is `0.9 ^ 10`, not this sum). -/
theorem claim7_counterexample :
    c7Start.velocityX = 0.1 ∧ c7Start.velocityY = 0 ∧
    c7End.rotationX - c7Start.rotationX = (0.1 : ℚ) * (1 - (0.95 : ℚ) ^ 10) / (1 - 0.95) ∧
    3487 / 10000 + 2 / 5 < c7End.rotationX - c7Start.rotationX := by
  have h := renderTicks_idle (List.replicate 10 0) c7Start rfl
  rw [List.length_replicate] at h
  have hrot : c7End.rotationX = c7Start.rotationX
      + c7Start.velocityX * (1 - friction ^ 10) / (1 - friction) := h.2.2.2.1
  refine ⟨rfl, rfl, ?_, ?_⟩ <;> rw [hrot] <;> norm_num [c7Start, friction]

/-- Claim C7 (amended): starting from pitch velocity `0.1` and yaw velocity
`0` at pointer-up, after exactly ten idle frame ticks the pitch angle has
increased by `0.1 * (1 - 0.95 ^ 10) / (1 - 0.95) ≈ 0.8025` (exactly
`4108933742199 / 5120000000000`) and the pitch velocity has decayed to
`0.1 * 0.95 ^ 10 ≈ 0.0599`; yaw angle and yaw velocity stay `0`. -/
theorem claim7_ten_ticks :
    c7End.rotationX - c7Start.rotationX = (0.1 : ℚ) * (1 - (0.95 : ℚ) ^ 10) / (1 - 0.95) ∧
    c7End.rotationX - c7Start.rotationX = 4108933742199 / 5120000000000 ∧
    8025 / 10000 - 1 / 1000 < c7End.rotationX - c7Start.rotationX ∧
    c7End.rotationX - c7Start.rotationX < 8025 / 10000 + 1 / 1000 ∧
    c7End.velocityX = (0.1 : ℚ) * (0.95 : ℚ) ^ 10 ∧
    599 / 10000 - 1 / 10000 < c7End.velocityX ∧
    c7End.velocityX < 599 / 10000 + 1 / 10000 ∧
    c7End.velocityY = 0 ∧
    c7End.rotationY = c7Start.rotationY := by
  have h := renderTicks_idle (List.replicate 10 0) c7Start rfl
  rw [List.length_replicate] at h
  have hrot : c7End.rotationX = c7Start.rotationX
      + c7Start.velocityX * (1 - friction ^ 10) / (1 - friction) := h.2.2.2.1
  have hroty : c7End.rotationY = c7Start.rotationY
      + c7Start.velocityY * (1 - friction ^ 10) / (1 - friction) := h.2.2.2.2
  have hvel : c7End.velocityX = c7Start.velocityX * friction ^ 10 := h.2.1
  have hvely : c7End.velocityY = c7Start.velocityY * friction ^ 10 := h.2.2.1
  refine ⟨?_, ?_, ?_, ?_, ?_, ?_, ?_, ?_, ?_⟩ <;>
    simp only [hrot, hroty, hvel, hvely] <;>
    norm_num [c7Start, friction]

/-- Claim C8: a frame tick that occurs while dragging leaves both angles,
both angular velocities and the last-known pointer coordinates unchanged,
and keeps the dragging flag; the only state change is the timestamp
bookkeeping `then = now * 0.001`. -/
theorem claim8_dragging_tick_inert (s : DemoState) (now : ℚ) (h : s.dragging = true) :
    (renderTick s now).rotationX = s.rotationX ∧
    (renderTick s now).rotationY = s.rotationY ∧
    (renderTick s now).velocityX = s.velocityX ∧
    (renderTick s now).velocityY = s.velocityY ∧
    (renderTick s now).lastMouseX = s.lastMouseX ∧
    (renderTick s now).lastMouseY = s.lastMouseY ∧
    (renderTick s now).dragging = true ∧
    (renderTick s now).thenTime = now * 0.001 := by
  simp [renderTick, h]

/-- Witness for C8 at the concrete dragging state `w8State`. -/
theorem claim8_witness :
    w8State.dragging = true ∧
    ((renderTick w8State 2000).rotationX = w8State.rotationX ∧
      (renderTick w8State 2000).rotationY = w8State.rotationY ∧
      (renderTick w8State 2000).velocityX = w8State.velocityX ∧
      (renderTick w8State 2000).velocityY = w8State.velocityY ∧
      (renderTick w8State 2000).lastMouseX = w8State.lastMouseX ∧
      (renderTick w8State 2000).lastMouseY = w8State.lastMouseY ∧
      (renderTick w8State 2000).dragging = true ∧
      (renderTick w8State 2000).thenTime = 2000 * 0.001) :=
  ⟨rfl, claim8_dragging_tick_inert w8State 2000 rfl⟩

/-- Claim C9: `loadTexture` synchronously uploads a single 1×1 opaque pixel
(RGBA `[0, 0, 255, 255]`, alpha 255) before returning, so the returned
texture always has pixel data bound — with zero frames elapsed and whether
or not the asynchronous image load has completed. -/
theorem claim9_placeholder_bindable :
    loadTexture.data = some (1, 1, [0, 0, 255, 255]) ∧
    loadTexture.data.isSome = true ∧
    ∀ img : Image, (imageOnload loadTexture img).data.isSome = true := by
  refine ⟨by decide, by decide, fun img => ?_⟩
  unfold imageOnload texImage2D
  by_cases h : (isPowerOf2 img.width && isPowerOf2 img.height) = true <;> simp [h]

/-- Claim C10: after any move sequence while dragging, the angular
velocities equal only the final move's deltas times `0.01` — each move
overwrites the velocity, so the momentum carried into Idle at pointer-up is
the last move's delta (taken against the previously recorded position)
regardless of the earlier moves and of the initial velocities; `mouseup`
carries these velocities into the Idle state unchanged. -/
theorem claim10_velocity_overwrite (s : DemoState) (ms : List (ℚ × ℚ)) (p : ℚ × ℚ)
    (h : s.dragging = true) :
    (mousemoves s (ms ++ [p])).velocityY
      = (p.1 - (mousemoves s ms).lastMouseX) * 0.01 ∧
    (mousemoves s (ms ++ [p])).velocityX
      = (p.2 - (mousemoves s ms).lastMouseY) * 0.01 ∧
    (mouseup (mousemoves s (ms ++ [p]))).velocityY
      = (p.1 - (mousemoves s ms).lastMouseX) * 0.01 ∧
    (mouseup (mousemoves s (ms ++ [p]))).velocityX
      = (p.2 - (mousemoves s ms).lastMouseY) * 0.01 ∧
    (mouseup (mousemoves s (ms ++ [p]))).dragging = false := by
  have hdrag : (mousemoves s ms).dragging = true := (mousemoves_drag_accum ms s h).1
  have happ : mousemoves s (ms ++ [p]) = mousemove (mousemoves s ms) p.1 p.2 := by
    simp [mousemoves, List.foldl_append]
  have hm := mousemove_drag (mousemoves s ms) p.1 p.2 hdrag
  rw [happ]
  exact ⟨hm.2.2.1, hm.2.2.2.1, by simp [mouseup, hm.2.2.1], by simp [mouseup, hm.2.2.2.1],
    by simp [mouseup]⟩

/-- Witness for C10: from a drag anchored at `(100, 100)`, the moves
`(110, 130)` then `(150, 120)`. -/
theorem claim10_witness :
    w2State.dragging = true ∧
    ((mousemoves w2State ([(110, 130)] ++ [(150, 120)])).velocityY
        = (150 - (mousemoves w2State [(110, 130)]).lastMouseX) * 0.01 ∧
      (mousemoves w2State ([(110, 130)] ++ [(150, 120)])).velocityX
        = (120 - (mousemoves w2State [(110, 130)]).lastMouseY) * 0.01 ∧
      (mouseup (mousemoves w2State ([(110, 130)] ++ [(150, 120)]))).velocityY
        = (150 - (mousemoves w2State [(110, 130)]).lastMouseX) * 0.01 ∧
      (mouseup (mousemoves w2State ([(110, 130)] ++ [(150, 120)]))).velocityX
        = (120 - (mousemoves w2State [(110, 130)]).lastMouseY) * 0.01 ∧
      (mouseup (mousemoves w2State ([(110, 130)] ++ [(150, 120)]))).dragging = false) :=
  ⟨rfl, claim10_velocity_overwrite w2State [(110, 130)] (150, 120) rfl⟩

end WebglDemo
